import Mathlib

/-!
# Verification of the CASS carbon-aware scheduler

Shallow embedding of the decision and dispatch core of the CASS repository:

* `carbon_fetcher.py` — single-objective (greenest-region) selection;
* `predictive_scheduler.py` — multi-objective scoring, weight renormalization,
  Pareto frontier generation;
* `job_runner.py` — bounded-retry dispatch loops (cloud-adapter path and
  legacy direct-HTTP path) and HTTP response classification;
* `cloud_adapter.py` — provider adapters and the provider-name factory;
* `dashboard/utils.py` — the display-side savings helper.

Numbers are modelled by `ℚ` (the Python floats involved only take small
exact values in the embedded computations), Python strings by `String`,
Python exceptions and failure-dict returns by `Except PyError`.  Network
I/O is modelled by explicit oracles: a fetch result is passed in as data,
an HTTP transport is a function argument.
-/

/-- Python error outcomes relevant to the embedded code.  `zeroDivisionError`
models an uncaught `ZeroDivisionError`; `valueError` models the `ValueError`
raised by `get_cloud_adapter`; `configurationError` models the spec's
`ConfigurationError` taxonomy entry (no such class exists in the source; the
constructor exists so that the spec's claim about it is statable);
`dataUnavailable` models the `{'success': False, 'error': 'Failed to fetch
carbon data'}` dictionary returned by `select_optimal_region`;
`attributeError` models the `AttributeError` raised by
`self.cloud_provider.upper()` at the top of `trigger_function` when
`cloud_provider` is `None`. -/
inductive PyError where
  | zeroDivisionError
  | valueError
  | configurationError
  | dataUnavailable
  | attributeError
deriving DecidableEq, Repr

/-- Python's built-in `round(x)` on a rational: round half to even
(banker's rounding), as used by `round(avg_carbon - ...)` in
`carbon_fetcher.py`. -/
def pythonRound (q : ℚ) : ℤ :=
  if q - ⌊q⌋ < 1/2 then ⌊q⌋
  else if 1/2 < q - ⌊q⌋ then ⌊q⌋ + 1
  else if ⌊q⌋ % 2 = 0 then ⌊q⌋ else ⌊q⌋ + 1

/-- Python's `round(x, 1)`: round to one decimal digit, ties to even, as used
by `dashboard/utils.py`. -/
def pythonRound1 (q : ℚ) : ℚ := (pythonRound (10 * q) : ℚ) / 10

/-- Python's `min(...)` over a list of numbers (first minimum wins); the
empty case never occurs at the call sites embedded below (Python would raise
`ValueError` there). -/
def pyMin : List ℚ → ℚ
  | [] => 0
  | x :: xs => xs.foldl (fun a b => if b < a then b else a) x

/-- Python's `max(...)` over a list of numbers (first maximum wins). -/
def pyMax : List ℚ → ℚ
  | [] => 0
  | x :: xs => xs.foldl (fun a b => if a < b then b else a) x

/-! ## carbon_fetcher.py — single-objective selection -/

/-- The dictionary returned by `CarbonFetcher.get_greenest_region` (the
fields the claims are about; display-only fields such as `name`, `flag` and
the timestamps are omitted). -/
structure GreenestResult where
  zone : String
  carbonIntensity : ℚ
  savings : ℤ
  averageCarbon : ℤ
  totalRegions : ℕ
deriving DecidableEq, Repr

/-- The `valid_regions` dict comprehension of `get_greenest_region`:
keep the fetch results that are present and carry a `carbonIntensity`
field, in insertion order.  A fetch result is `(zone, some c)` on success
and `(zone, none)` on failure. -/
def valid_regions (all_data : List (String × Option ℚ)) : List (String × ℚ) :=
  all_data.filterMap (fun p => p.2.map (fun c => (p.1, c)))

/-- One step of Python's `min(..., key=...)`: keep the incumbent unless the
new element is strictly smaller (so the first minimum wins). -/
def min_step (best c : String × ℚ) : String × ℚ :=
  if c.2 < best.2 then c else best

/-- `min(valid_regions.keys(), key=lambda z: ... ['carbonIntensity'])`:
Python's `min` scans left to right and keeps the first element attaining the
minimum key. -/
def min_by_intensity : List (String × ℚ) → Option (String × ℚ)
  | [] => none
  | x :: xs => some (xs.foldl min_step x)

/-- `CarbonFetcher.get_greenest_region`, with the fetch results passed in as
data: filter failed fetches, pick the zone of minimal carbon intensity,
report `savings = round(avg - selected)` and `averageCarbon = round(avg)`;
`None` when every fetch failed. -/
def get_greenest_region (all_data : List (String × Option ℚ)) : Option GreenestResult :=
  let valid := valid_regions all_data
  match min_by_intensity valid with
  | none => none
  | some greenest =>
    let avg_carbon := (valid.map (fun c => c.2)).sum / (valid.length : ℚ)
    some { zone := greenest.1
           carbonIntensity := greenest.2
           savings := pythonRound (avg_carbon - greenest.2)
           averageCarbon := pythonRound avg_carbon
           totalRegions := valid.length }

/-! ## predictive_scheduler.py — multi-objective selection -/

/-- `REGION_COSTS.get(region, 0.05)`: the static cost table of
`predictive_scheduler.py` (USD per vCPU-hour), with the `.get` default. -/
def REGION_COSTS (region : String) : ℚ :=
  if region = "IN" then 476/10000
  else if region = "FI" then 570/10000
  else if region = "DE" then 475/10000
  else if region = "JP" then 560/10000
  else if region = "AU-NSW" then 595/10000
  else if region = "BR-CS" then 450/10000
  else 5/100

/-- `REGION_LATENCY.get(region, 100)`: the static latency table (ms) with the
`.get` default. -/
def REGION_LATENCY (region : String) : ℚ :=
  if region = "IN" then 10
  else if region = "FI" then 180
  else if region = "DE" then 150
  else if region = "JP" then 90
  else if region = "AU-NSW" then 140
  else if region = "BR-CS" then 350
  else 100

/-- `PredictiveScheduler.normalize_value`: min-max normalization with the
degenerate case mapped to `0.5`. -/
def normalize_value (value min_val max_val : ℚ) : ℚ :=
  if max_val = min_val then 1/2
  else (value - min_val) / (max_val - min_val)

/-- A candidate region as assembled in `select_optimal_region` (the
`use_prediction=False` path: `carbon_intensity` is the current reading). -/
structure Candidate where
  region : String
  carbon_intensity : ℚ
  latency : ℚ
  cost : ℚ
deriving DecidableEq, Repr

/-- `PredictiveScheduler.calculate_multi_objective_score`: normalize each
objective against the candidate pool, then return the weighted sum (lower is
better).  The weights are used exactly as given here; renormalization happens
in `select_optimal_region`. -/
def calculate_multi_objective_score (carbon_intensity latency cost : ℚ)
    (all_carbon all_latency all_costs : List ℚ)
    (w_carbon w_latency w_cost : ℚ) : ℚ :=
  let norm_carbon := normalize_value carbon_intensity (pyMin all_carbon) (pyMax all_carbon)
  let norm_latency := normalize_value latency (pyMin all_latency) (pyMax all_latency)
  let norm_cost := normalize_value cost (pyMin all_costs) (pyMax all_costs)
  w_carbon * norm_carbon + w_latency * norm_latency + w_cost * norm_cost

/-- The fields of the dict returned by a successful
`PredictiveScheduler.select_optimal_region` call that the claims are about. -/
structure OptimalResult where
  region : String
  carbon_intensity : ℚ
  latency : ℚ
  cost : ℚ
  score : ℚ
  w_carbon : ℚ
  w_latency : ℚ
  w_cost : ℚ
  savings_gco2 : ℚ
  avg_carbon_intensity : ℚ
deriving DecidableEq, Repr

/-- `PredictiveScheduler.select_optimal_region` (`use_prediction=False`
path), with the per-region carbon readings passed in as data in insertion
order.  The source first renormalizes the weights (`w /= total_weight`,
which raises `ZeroDivisionError` when the weights sum to zero), then
returns the `success: False` dict when no carbon data is available
(modelled as `.error .dataUnavailable`), otherwise scores every candidate,
sorts by score (Python's stable `list.sort`) and reports the head together
with `savings = avg - selected`. -/
def select_optimal_region (w_carbon w_latency w_cost : ℚ)
    (carbon_data : List (String × ℚ)) : Except PyError OptimalResult :=
  let total_weight := w_carbon + w_latency + w_cost
  if total_weight = 0 then .error .zeroDivisionError
  else
    let wc := w_carbon / total_weight
    let wl := w_latency / total_weight
    let wco := w_cost / total_weight
    if carbon_data = [] then .error .dataUnavailable
    else
      let candidates := carbon_data.map (fun p =>
        Candidate.mk p.1 p.2 (REGION_LATENCY p.1) (REGION_COSTS p.1))
      let all_carbon := candidates.map (fun c => c.carbon_intensity)
      let all_latency := candidates.map (fun c => c.latency)
      let all_costs := candidates.map (fun c => c.cost)
      let scored := candidates.map (fun c =>
        (c, calculate_multi_objective_score c.carbon_intensity c.latency c.cost
              all_carbon all_latency all_costs wc wl wco))
      match scored.mergeSort (fun a b => decide (a.2 ≤ b.2)) with
      | [] => .error .dataUnavailable
      | optimal :: _ =>
        let avg_carbon := all_carbon.sum / (all_carbon.length : ℚ)
        .ok { region := optimal.1.region
              carbon_intensity := optimal.1.carbon_intensity
              latency := optimal.1.latency
              cost := optimal.1.cost
              score := optimal.2
              w_carbon := wc
              w_latency := wl
              w_cost := wco
              savings_gco2 := avg_carbon - optimal.1.carbon_intensity
              avg_carbon_intensity := avg_carbon }

/-- The scoring pipeline of `select_optimal_region` for a single candidate:
renormalize the raw weights to a convex combination, then call
`calculate_multi_objective_score` (this is exactly how every candidate's
`score` field is computed in the source). -/
def score_with_renormalized_weights (w_carbon w_latency w_cost : ℚ)
    (carbon_intensity latency cost : ℚ)
    (all_carbon all_latency all_costs : List ℚ) : ℚ :=
  let total_weight := w_carbon + w_latency + w_cost
  calculate_multi_objective_score carbon_intensity latency cost
    all_carbon all_latency all_costs
    (w_carbon / total_weight) (w_latency / total_weight) (w_cost / total_weight)

/-! ## dashboard/utils.py — display-side savings helper -/

/-- `dashboard/utils.py calculate_carbon_savings`: recompute savings from the
selected carbon intensity and the list of all intensities, clamping with
`max(0, avg - selected)`, and round both outputs with `round(x, 1)`. -/
def calculate_carbon_savings (selected_carbon : ℚ) (all_carbons : List ℚ) : ℚ × ℚ :=
  if all_carbons = [] then (0, 0)
  else
    let avg_carbon := all_carbons.sum / (all_carbons.length : ℚ)
    let savings_gco2 := max 0 (avg_carbon - selected_carbon)
    let savings_percent := if 0 < avg_carbon then savings_gco2 / avg_carbon * 100 else 0
    (pythonRound1 savings_gco2, pythonRound1 savings_percent)

/-! ## predictive_scheduler.py — Pareto frontier -/

/-- A solution point of `generate_pareto_frontier`.  In the source each
solution is a dict with `carbon`, `latency` and `cost` entries and the two
compared objectives are selected by the `objective1`/`objective2` string
arguments; `obj1`/`obj2` are those two selected columns. -/
structure Solution where
  region : String
  obj1 : ℚ
  obj2 : ℚ
deriving DecidableEq, Repr

/-- The domination test of `generate_pareto_frontier`: `sj` dominates `si`
iff `sj` is not worse on either objective and strictly better on at least
one. -/
def dominates (sj si : Solution) : Bool :=
  decide (sj.obj1 ≤ si.obj1) && decide (sj.obj2 ≤ si.obj2) &&
    (decide (sj.obj1 < si.obj1) || decide (sj.obj2 < si.obj2))

/-- The inner loop of `generate_pareto_frontier` for the solution at index
`i`: some other index `j ≠ i` holds a dominating solution (the source skips
`i == j` with `continue`). -/
def is_dominated_at (indexed : List (ℕ × Solution)) (i : ℕ) (si : Solution) : Bool :=
  indexed.any (fun jp => decide (jp.1 ≠ i) && dominates jp.2 si)

/-- Index-free domination test: some solution of the list dominates `s`
(equivalent to `is_dominated_at` because `dominates` is irreflexive; see
`is_dominated_at_eq`). -/
def is_dominated (solutions : List Solution) (s : Solution) : Bool :=
  solutions.any (fun sj => dominates sj s)

/-- `PredictiveScheduler.generate_pareto_frontier`, with the solution list
passed in as data: keep every solution not dominated by a solution at
another index, then sort ascending by the first objective (Python's stable
`list.sort`). -/
def generate_pareto_frontier (solutions : List Solution) : List Solution :=
  let indexed := solutions.enum
  let pareto := indexed.filter (fun ip => !(is_dominated_at indexed ip.1 ip.2))
  (pareto.map Prod.snd).mergeSort (fun a b => decide (a.obj1 ≤ b.obj1))

/-! ## job_runner.py — dispatch loops -/

/-- The result dict returned by `CloudAdapter.deploy_job` as consumed by the
retry loop in `JobRunner.trigger_function` (only the `success` flag and the
`message` matter to the loop). -/
structure DeployResult where
  success : Bool
  message : String
deriving DecidableEq, Repr

/-- One attempt of the adapter path: `deploy_job` either returns a result
dict (`.ok`) or raises (`.error`, caught by `except Exception`). -/
def attemptFails (o : Except String DeployResult) : Bool :=
  match o with
  | .ok r => !r.success
  | .error _ => true

/-- Observable trace of one `trigger_function` call: number of attempts
performed, the list of inter-attempt sleep durations in order, the returned
success flag, and the returned result value (`none` only when the loop body
never ran). -/
structure Trace (ρ : Type) where
  attempts : ℕ
  waitDelays : List ℕ
  success : Bool
  result : Option ρ

/-- The adapter-path retry loop of `JobRunner.trigger_function`, unrolled
from attempt number `a` with `r` attempts remaining; `b` gives the outcome
of each attempt (a behaviour of the endpoint), `d` is the configured
`retry_delay`.  On success return immediately; on failure sleep `d` and
retry unless this was the last attempt, in which case return the last
observed result. -/
def trigger_with_adapter_from (b : ℕ → Except String DeployResult) (d : ℕ) :
    ℕ → ℕ → Trace (Except String DeployResult)
  | _, 0 => ⟨0, [], false, none⟩
  | a, r + 1 =>
    if attemptFails (b a) then
      if r = 0 then ⟨1, [], false, some (b a)⟩
      else
        let rest := trigger_with_adapter_from b d (a + 1) r
        ⟨rest.attempts + 1, d :: rest.waitDelays, rest.success, rest.result⟩
    else ⟨1, [], true, some (b a)⟩

/-- `JobRunner.trigger_function` on the adapter path: attempts numbered
`1..max_retries`. -/
def trigger_with_adapter (b : ℕ → Except String DeployResult) (d max_retries : ℕ) :
    Trace (Except String DeployResult) :=
  trigger_with_adapter_from b d 1 max_retries

/-- What `handle_response` stores as `response_data`: the parsed JSON body,
or the `{'raw_response': ..., 'content_type': ...}` fallback when the body
is not valid JSON. -/
inductive Payload where
  | parsed
  | rawFallback
deriving DecidableEq, Repr

/-- `JobRunner.handle_response`: parse the body (falling back to the raw
wrapper on `JSONDecodeError`), then classify by status code.  Returns
(success flag, response_data, error tag of the failure dict). -/
def handle_response (status : ℕ) (json_ok : Bool) : Bool × Payload × Option String :=
  let response_data : Payload := if json_ok then .parsed else .rawFallback
  if status = 200 then (true, response_data, none)
  else if status = 404 then (false, response_data, some "not_found")
  else if status = 403 then (false, response_data, some "forbidden")
  else if status = 500 then (false, response_data, some "server_error")
  else if status = 503 then (false, response_data, some "unavailable")
  else (false, response_data, some "unexpected_status")

/-- One attempt of the legacy direct-HTTP path of `trigger_function`: a
response (with status and JSON parseability of the body), or one of the
caught exception kinds. -/
inductive HttpAttempt where
  | response (status : ℕ) (json_ok : Bool)
  | timeout
  | connError (msg : String)
  | reqError (msg : String)
  | unexpected (msg : String)
deriving DecidableEq, Repr

/-- The value returned by the legacy loop: the parsed response data on
success, or the error dict (identified by its tag) on failure. -/
inductive LegacyResult where
  | okData (p : Payload)
  | errTag (tag : String)
deriving DecidableEq, Repr

/-- Per-attempt classification of the legacy path: the success flag from
`handle_response` for a response, failure with the corresponding error tag
for each caught exception. -/
def legacy_attempt_result (a : HttpAttempt) : Bool × LegacyResult :=
  match a with
  | .response status json_ok =>
    let hr := handle_response status json_ok
    if hr.1 then (true, .okData hr.2.1) else (false, .errTag (hr.2.2.getD "error"))
  | .timeout => (false, .errTag "timeout")
  | .connError _ => (false, .errTag "connection_error")
  | .reqError _ => (false, .errTag "request_exception")
  | .unexpected _ => (false, .errTag "unexpected")

/-- Whether a failed legacy attempt is retried: timeouts, connection errors,
request exceptions and non-200 responses are; the bare `except Exception`
branch returns immediately. -/
def legacy_retryable (a : HttpAttempt) : Bool :=
  match a with
  | .unexpected _ => false
  | _ => true

/-- The legacy direct-HTTP `for attempt in range(1, max_retries + 1)` loop
statement of `JobRunner.trigger_function`, unrolled from attempt `a` with
`r` attempts remaining.  This models only the loop text: in the program the
loop is reached through `trigger_function`, whose provider print raises
`AttributeError` first whenever `cloud_provider` is `None` — which
`JobRunner.__init__` forces exactly when no adapter is configured, so this
loop never actually runs (see `trigger_function` below and the C2
theorem). -/
def legacy_trigger_from (b : ℕ → HttpAttempt) (d : ℕ) : ℕ → ℕ → Trace LegacyResult
  | _, 0 => ⟨0, [], false, none⟩
  | a, r + 1 =>
    if (legacy_attempt_result (b a)).1 then
      ⟨1, [], true, some (legacy_attempt_result (b a)).2⟩
    else if legacy_retryable (b a) = false then
      ⟨1, [], false, some (legacy_attempt_result (b a)).2⟩
    else if r = 0 then
      ⟨1, [], false, some (legacy_attempt_result (b a)).2⟩
    else
      let rest := legacy_trigger_from b d (a + 1) r
      ⟨rest.attempts + 1, d :: rest.waitDelays, rest.success, rest.result⟩

/-- The legacy loop of `trigger_function` with attempts numbered
`1..max_retries` (the loop text only; unreachable in the program, see
`trigger_function`). -/
def legacy_trigger (b : ℕ → HttpAttempt) (d max_retries : ℕ) : Trace LegacyResult :=
  legacy_trigger_from b d 1 max_retries

/-! ## cloud_adapter.py — adapters and factory -/

/-- An HTTP response as observed by the adapter code: status code, whether
the body is non-empty (`response.content`), and whether it parses as JSON. -/
structure HttpResponse where
  status : ℕ
  has_content : Bool
  json_ok : Bool
deriving DecidableEq, Repr

/-- `requests.Response.raise_for_status`: raises `HTTPError` for
`400 <= status < 600`. -/
def raise_for_status (status : ℕ) : Bool :=
  decide (400 ≤ status) && decide (status < 600)

/-- The request body shape sent by an adapter: GCP and Azure post the
payload directly, AWS wraps it as `{'body': payload, 'headers': {...}}`.
The payload is identified by its `job_id` entry (the only part the embedded
code reads). -/
inductive PayloadEnvelope where
  | raw (job_id : Option String)
  | wrapped (job_id : Option String)
deriving DecidableEq, Repr

/-- `CloudAdapter._make_request`: POST via the transport, re-raising any
transport exception, and raising `HTTPError` on a 4xx/5xx status. -/
def make_request (transport : String → PayloadEnvelope → Except String HttpResponse)
    (url : String) (body : PayloadEnvelope) : Except String HttpResponse :=
  match transport url body with
  | .error e => .error e
  | .ok resp => if raise_for_status resp.status then .error "http_error" else .ok resp

/-- Success classification of one adapter-path attempt, as produced by the
`try` block of `deploy_job`: the request must not raise (neither a transport
error nor `raise_for_status`) and `response.json()` must not raise, i.e. the
body is empty or parses as JSON. -/
def adapter_attempt_success (t : Except String HttpResponse) : Bool :=
  match t with
  | .error _ => false
  | .ok resp =>
    if raise_for_status resp.status then false
    else !(resp.has_content && !resp.json_ok)

/-- The payload dict passed to `deploy_job` (only its `job_id` entry is
read, via `payload.get('job_id', 'unknown')`). -/
structure JobPayload where
  job_id : Option String
deriving DecidableEq, Repr

/-- The result dict built by the concrete `deploy_job` implementations. -/
structure DeployOutcome where
  success : Bool
  job_id : String
  region : String
  provider : String
  message : String
  response : Option Payload
deriving DecidableEq, Repr

/-- Adapter configuration (`worker_url` plus the provider-specific fields,
after `.get` defaults are resolved by the caller). -/
structure AdapterConfig where
  worker_url : Option String
  project_id : String
  function_name : String
  function_id : String
  app_name : String
deriving DecidableEq, Repr

/-- GCP endpoint URL: the configured `worker_url`, else the per-region
Cloud Functions URL template. -/
def gcp_url (cfg : AdapterConfig) (region : String) : String :=
  match cfg.worker_url with
  | some u => u
  | none => "https://" ++ region ++ "-" ++ cfg.project_id ++ ".cloudfunctions.net/"
      ++ cfg.function_name

/-- AWS endpoint URL: the configured `worker_url`, else the Lambda
function-URL template. -/
def aws_url (cfg : AdapterConfig) (region : String) : String :=
  match cfg.worker_url with
  | some u => u
  | none => "https://" ++ cfg.function_id ++ ".lambda-url." ++ region ++ ".on.aws/"

/-- Azure endpoint URL: the configured `worker_url`, else the Azure
Functions URL template. -/
def azure_url (cfg : AdapterConfig) (region : String) : String :=
  match cfg.worker_url with
  | some u => u
  | none => "https://" ++ cfg.app_name ++ "-" ++ region ++ ".azurewebsites.net/api/"
      ++ cfg.function_name

/-- `GCPAdapter.deploy_job`: build the URL, POST the raw payload, and map
every raised error (transport, HTTP status, JSON decoding) to a
`success: False` result dict; never propagates an exception. -/
def gcp_deploy_job (cfg : AdapterConfig)
    (transport : String → PayloadEnvelope → Except String HttpResponse)
    (region : String) (payload : JobPayload) : DeployOutcome :=
  match make_request transport (gcp_url cfg region) (.raw payload.job_id) with
  | .ok resp =>
    if resp.has_content && !resp.json_ok then
      { success := false, job_id := payload.job_id.getD "unknown", region := region,
        provider := "GCP", message := "Deployment failed: json_error", response := none }
    else
      { success := true, job_id := payload.job_id.getD "unknown", region := region,
        provider := "GCP", message := "Job deployed to GCP Cloud Function in " ++ region,
        response := if resp.has_content then some .parsed else none }
  | .error e =>
    { success := false, job_id := payload.job_id.getD "unknown", region := region,
      provider := "GCP", message := "Deployment failed: " ++ e, response := none }

/-- `AWSAdapter.deploy_job`: same structure as GCP but posts the wrapped
payload envelope to the Lambda URL and tags the provider as `AWS`. -/
def aws_deploy_job (cfg : AdapterConfig)
    (transport : String → PayloadEnvelope → Except String HttpResponse)
    (region : String) (payload : JobPayload) : DeployOutcome :=
  match make_request transport (aws_url cfg region) (.wrapped payload.job_id) with
  | .ok resp =>
    if resp.has_content && !resp.json_ok then
      { success := false, job_id := payload.job_id.getD "unknown", region := region,
        provider := "AWS", message := "Deployment failed: json_error", response := none }
    else
      { success := true, job_id := payload.job_id.getD "unknown", region := region,
        provider := "AWS", message := "Job deployed to AWS Lambda in " ++ region,
        response := if resp.has_content then some .parsed else none }
  | .error e =>
    { success := false, job_id := payload.job_id.getD "unknown", region := region,
      provider := "AWS", message := "Deployment failed: " ++ e, response := none }

/-- `AzureAdapter.deploy_job`: same structure as GCP, posting the raw
payload to the Azure Functions URL and tagging the provider as `Azure`. -/
def azure_deploy_job (cfg : AdapterConfig)
    (transport : String → PayloadEnvelope → Except String HttpResponse)
    (region : String) (payload : JobPayload) : DeployOutcome :=
  match make_request transport (azure_url cfg region) (.raw payload.job_id) with
  | .ok resp =>
    if resp.has_content && !resp.json_ok then
      { success := false, job_id := payload.job_id.getD "unknown", region := region,
        provider := "Azure", message := "Deployment failed: json_error", response := none }
    else
      { success := true, job_id := payload.job_id.getD "unknown", region := region,
        provider := "Azure", message := "Job deployed to Azure Function in " ++ region,
        response := if resp.has_content then some .parsed else none }
  | .error e =>
    { success := false, job_id := payload.job_id.getD "unknown", region := region,
      provider := "Azure", message := "Deployment failed: " ++ e, response := none }

/-- The three concrete adapter classes produced by `get_cloud_adapter`. -/
inductive AdapterKind where
  | gcp
  | aws
  | azure
deriving DecidableEq, Repr

/-- Python's `str.lower()` (ASCII case folding via `Char.toLower`, which is
all the provider names use). -/
def py_lower (s : String) : String := ⟨s.data.map Char.toLower⟩

/-- Python's `str.strip()`: drop whitespace from both ends. -/
def py_strip (s : String) : String :=
  ⟨((s.data.dropWhile Char.isWhitespace).reverse.dropWhile Char.isWhitespace).reverse⟩

/-- `get_cloud_adapter`: normalize the provider name with
`provider.lower().strip()`, look it up in the synonym table, and raise
`ValueError` for an unrecognized name. -/
def get_cloud_adapter (provider : String) : Except PyError AdapterKind :=
  let p := py_strip (py_lower provider)
  if p = "gcp" ∨ p = "google" ∨ p = "google-cloud" then .ok .gcp
  else if p = "aws" ∨ p = "amazon" then .ok .aws
  else if p = "azure" ∨ p = "microsoft-azure" then .ok .azure
  else .error .valueError

/-- The adapter-initialization logic of `JobRunner.__init__`: with a truthy
provider other than `'none'`, call the factory on the lowercased name and on
any exception fall back to `(None, None)` (no adapter, legacy direct-HTTP
dispatch); returns the resulting `(cloud_adapter, cloud_provider)` pair. -/
def job_runner_init (cloud_provider : Option String) : Option AdapterKind × Option String :=
  match cloud_provider with
  | none => (none, none)
  | some s =>
    if s ≠ "" ∧ py_lower s ≠ "none" then
      match get_cloud_adapter (py_lower s) with
      | .ok a => (some a, some (py_lower s))
      | .error _ => (none, none)
    else (none, none)

/-- What a completed `trigger_function` call returns: the trace of the
adapter-path loop or of the legacy direct-HTTP loop. -/
inductive DispatchOutcome where
  | adapterTrace (t : Trace (Except String DeployResult))
  | legacyTrace (t : Trace LegacyResult)

/-- `JobRunner.trigger_function` as a whole.  Before selecting a path the
source unconditionally prints
`f"☁️  Provider: {self.cloud_provider.upper()}"`, which raises
`AttributeError` when `cloud_provider` is `None`; only then does
`if self.cloud_adapter:` choose between the adapter-path retry loop and the
legacy direct-HTTP retry loop.  `adapter_behaviour` gives the outcome of
each `deploy_job` attempt, `legacy_behaviour` the outcome of each direct
HTTP attempt. -/
def trigger_function (cloud_adapter : Option AdapterKind) (cloud_provider : Option String)
    (adapter_behaviour : ℕ → Except String DeployResult)
    (legacy_behaviour : ℕ → HttpAttempt) (d max_retries : ℕ) :
    Except PyError DispatchOutcome :=
  match cloud_provider with
  | none => .error .attributeError
  | some _ =>
    match cloud_adapter with
    | some _ => .ok (.adapterTrace (trigger_with_adapter adapter_behaviour d max_retries))
    | none => .ok (.legacyTrace (legacy_trigger legacy_behaviour d max_retries))

/-! ## Theorems for C1 -/

theorem foldl_min_step_spec (xs : List (String × ℚ)) : ∀ x : String × ℚ,
    (xs.foldl min_step x = x ∧ ∀ q ∈ xs, x.2 ≤ q.2) ∨
    (∃ l1 l2, xs = l1 ++ xs.foldl min_step x :: l2 ∧
      (xs.foldl min_step x).2 < x.2 ∧
      (∀ q ∈ l1, (xs.foldl min_step x).2 < q.2) ∧
      (∀ q ∈ l2, (xs.foldl min_step x).2 ≤ q.2)) := by
  induction xs with
  | nil => intro x; left; exact ⟨rfl, by simp⟩
  | cons c cs ih =>
    intro x
    simp only [List.foldl_cons]
    by_cases h : c.2 < x.2
    · have hstep : min_step x c = c := by simp [min_step, h]
      rw [hstep]
      rcases ih c with ⟨heq, hall⟩ | ⟨l1, l2, hsplit, hlt, hl1, hl2⟩
      · right
        refine ⟨[], cs, ?_, ?_, by simp, ?_⟩
        · rw [heq]; rfl
        · rw [heq]; exact h
        · intro q hq; rw [heq]; exact hall q hq
      · right
        refine ⟨c :: l1, l2, congrArg (List.cons c) hsplit, lt_trans hlt h, ?_, hl2⟩
        intro q hq
        rcases List.mem_cons.mp hq with rfl | hq
        · exact hlt
        · exact hl1 q hq
    · have hstep : min_step x c = x := by simp [min_step, h]
      rw [hstep]
      push_neg at h
      rcases ih x with ⟨heq, hall⟩ | ⟨l1, l2, hsplit, hlt, hl1, hl2⟩
      · left
        refine ⟨heq, ?_⟩
        intro q hq
        rcases List.mem_cons.mp hq with rfl | hq
        · exact h
        · exact hall q hq
      · right
        refine ⟨c :: l1, l2, congrArg (List.cons c) hsplit, hlt, ?_, hl2⟩
        intro q hq
        rcases List.mem_cons.mp hq with rfl | hq
        · exact lt_of_lt_of_le hlt h
        · exact hl1 q hq

theorem min_by_intensity_spec (l : List (String × ℚ)) (hl : l ≠ []) :
    ∃ p l1 l2, min_by_intensity l = some p ∧ l = l1 ++ p :: l2 ∧
      (∀ q ∈ l, p.2 ≤ q.2) ∧ (∀ q ∈ l1, p.2 < q.2) := by
  obtain ⟨x, xs, rfl⟩ : ∃ x xs, l = x :: xs := by
    cases l with
    | nil => exact absurd rfl hl
    | cons a as => exact ⟨a, as, rfl⟩
  rcases foldl_min_step_spec xs x with ⟨heq, hall⟩ | ⟨l1, l2, hsplit, hlt, hl1, hl2⟩
  · refine ⟨x, [], xs, ?_, rfl, ?_, by simp⟩
    · simp only [min_by_intensity, heq]
    · intro q hq
      rcases List.mem_cons.mp hq with rfl | hq
      · exact le_refl _
      · exact hall q hq
  · refine ⟨xs.foldl min_step x, x :: l1, l2, rfl, congrArg (List.cons x) hsplit, ?_, ?_⟩
    · intro q hq
      rcases List.mem_cons.mp hq with rfl | hq
      · exact le_of_lt hlt
      · rw [hsplit] at hq
        rcases List.mem_append.mp hq with hq | hq
        · exact le_of_lt (hl1 q hq)
        · rcases List.mem_cons.mp hq with rfl | hq
          · exact le_refl _
          · exact hl2 q hq
    · intro q hq
      rcases List.mem_cons.mp hq with rfl | hq
      · exact hlt
      · exact hl1 q hq

/-- C1: for every non-empty set of region candidates with successfully
fetched carbon data, `get_greenest_region` returns the candidate whose
carbon intensity is minimal over the set, and on ties the one occurring
first in input (insertion) order: the returned `(zone, carbonIntensity)`
pair occurs in the valid candidate list, is a minimum of it, and every
candidate strictly before it has strictly larger carbon intensity. -/
theorem get_greenest_region_selects_first_min (all_data : List (String × Option ℚ))
    (h : valid_regions all_data ≠ []) :
    ∃ r l1 l2, get_greenest_region all_data = some r ∧
      valid_regions all_data = l1 ++ (r.zone, r.carbonIntensity) :: l2 ∧
      (∀ q ∈ valid_regions all_data, r.carbonIntensity ≤ q.2) ∧
      (∀ q ∈ l1, r.carbonIntensity < q.2) := by
  obtain ⟨p, l1, l2, hp, hsplit, hmin, hfirst⟩ := min_by_intensity_spec _ h
  refine ⟨{ zone := p.1
            carbonIntensity := p.2
            savings := pythonRound
              (((valid_regions all_data).map (fun c => c.2)).sum /
                ((valid_regions all_data).length : ℚ) - p.2)
            averageCarbon := pythonRound
              (((valid_regions all_data).map (fun c => c.2)).sum /
                ((valid_regions all_data).length : ℚ))
            totalRegions := (valid_regions all_data).length }, l1, l2, ?_, ?_, hmin, hfirst⟩
  · simp only [get_greenest_region, hp]
  · simpa using hsplit

/-- Witness for C1 at the spec's scenario (IN 650, FI 45, DE 420): the
hypothesis holds and the theorem applies. -/
theorem get_greenest_region_selects_first_min_w :
    valid_regions [("IN", some 650), ("FI", some 45), ("DE", some 420)] ≠ [] ∧
    (∃ r l1 l2,
      get_greenest_region [("IN", some 650), ("FI", some 45), ("DE", some 420)] = some r ∧
      valid_regions [("IN", some 650), ("FI", some 45), ("DE", some 420)] =
        l1 ++ (r.zone, r.carbonIntensity) :: l2 ∧
      (∀ q ∈ valid_regions [("IN", some 650), ("FI", some 45), ("DE", some 420)],
        r.carbonIntensity ≤ q.2) ∧
      (∀ q ∈ l1, r.carbonIntensity < q.2)) :=
  ⟨by simp [valid_regions],
   get_greenest_region_selects_first_min _ (by simp [valid_regions])⟩

/-! ## Theorems for C4 -/

/-- C4: on a tick whose candidate set is empty (every snapshot fetch
failed), the decision engine returns the data-unavailable failure and never
an `.ok` decision fabricated from defaults — stated for every weight triple
that passes the (earlier) weight renormalization. -/
theorem select_optimal_region_empty_data (w1 w2 w3 : ℚ) (hw : w1 + w2 + w3 ≠ 0) :
    select_optimal_region w1 w2 w3 [] = .error .dataUnavailable ∧
    ∀ r : OptimalResult, select_optimal_region w1 w2 w3 [] ≠ .ok r := by
  constructor
  · simp [select_optimal_region, hw]
  · intro r
    simp [select_optimal_region, hw]

/-- Witness for C4 at the source's default weights (0.5, 0.3, 0.2). -/
theorem select_optimal_region_empty_data_w :
    (1/2 + 3/10 + 1/5 : ℚ) ≠ 0 ∧
    (select_optimal_region (1/2) (3/10) (1/5) [] = .error .dataUnavailable ∧
      ∀ r : OptimalResult, select_optimal_region (1/2) (3/10) (1/5) [] ≠ .ok r) :=
  ⟨by norm_num, select_optimal_region_empty_data (1/2) (3/10) (1/5) (by norm_num)⟩

/-! ## Theorems for C5 -/

/-- C5 counterexample: with weights `{0,0,0}` the engine hits
`w_carbon /= total_weight` with `total_weight == 0` and raises
`ZeroDivisionError`; no `ConfigurationError` class exists in the source and
none is raised, so the claim that scoring raises a `ConfigurationError` is
false at this input. -/
theorem select_optimal_region_zero_weights_cex :
    select_optimal_region 0 0 0 [("FI", 45)] = .error .zeroDivisionError ∧
    select_optimal_region 0 0 0 [("FI", 45)] ≠ .error .configurationError := by
  constructor
  · simp [select_optimal_region]
  · simp [select_optimal_region]

/-- C5 amended: for every weight triple summing to zero (in particular
`{0,0,0}`), invoking multi-objective selection raises an uncaught
`ZeroDivisionError` during weight renormalization — it fails rather than
silently substituting equal weighting, but the failure is a
`ZeroDivisionError`, not a `ConfigurationError`. -/
theorem select_optimal_region_zero_weights (w1 w2 w3 : ℚ)
    (hsum : w1 + w2 + w3 = 0) (data : List (String × ℚ)) :
    select_optimal_region w1 w2 w3 data = .error .zeroDivisionError := by
  simp [select_optimal_region, hsum]

/-- Witness for the amended C5 at weights `{0,0,0}`. -/
theorem select_optimal_region_zero_weights_w :
    ((0 : ℚ) + 0 + 0 = 0) ∧
    select_optimal_region 0 0 0 [("IN", 650)] = .error .zeroDivisionError :=
  ⟨by norm_num, select_optimal_region_zero_weights 0 0 0 (by norm_num) [("IN", 650)]⟩

/-! ## Theorems for C8 -/

/-- C8: scoring is scale-invariant in the weights: for every candidate,
candidate pool and weight triple with positive sum, scaling all three raw
weights by any `k > 0` changes neither the renormalized score of any
candidate nor the outcome of `select_optimal_region`, because the weights
are renormalized to a convex combination (`w_i / Σw`) before use. -/
theorem multi_objective_score_scale_invariant
    (carbon latency cost : ℚ) (all_carbon all_latency all_costs : List ℚ)
    (data : List (String × ℚ)) (w1 w2 w3 k : ℚ)
    (hk : 0 < k) (hw : 0 < w1 + w2 + w3) :
    score_with_renormalized_weights (k * w1) (k * w2) (k * w3)
        carbon latency cost all_carbon all_latency all_costs =
      score_with_renormalized_weights w1 w2 w3
        carbon latency cost all_carbon all_latency all_costs ∧
    select_optimal_region (k * w1) (k * w2) (k * w3) data =
      select_optimal_region w1 w2 w3 data := by
  have hk0 : k ≠ 0 := ne_of_gt hk
  have hw0 : w1 + w2 + w3 ≠ 0 := ne_of_gt hw
  have hsum : k * w1 + k * w2 + k * w3 = k * (w1 + w2 + w3) := by ring
  have h1 : k * w1 / (k * w1 + k * w2 + k * w3) = w1 / (w1 + w2 + w3) := by
    rw [hsum, mul_div_mul_left _ _ hk0]
  have h2 : k * w2 / (k * w1 + k * w2 + k * w3) = w2 / (w1 + w2 + w3) := by
    rw [hsum, mul_div_mul_left _ _ hk0]
  have h3 : k * w3 / (k * w1 + k * w2 + k * w3) = w3 / (w1 + w2 + w3) := by
    rw [hsum, mul_div_mul_left _ _ hk0]
  constructor
  · simp only [score_with_renormalized_weights]
    rw [h1, h2, h3]
  · simp only [select_optimal_region]
    rw [h1, h2, h3, hsum]
    rw [if_neg (mul_ne_zero hk0 hw0), if_neg hw0]

/-- Witness for C8 with `k = 2` and the source's default weights. -/
theorem multi_objective_score_scale_invariant_w :
    (0 : ℚ) < 2 ∧ (0 : ℚ) < 1/2 + 3/10 + 1/5 ∧
    (score_with_renormalized_weights (2 * (1/2)) (2 * (3/10)) (2 * (1/5))
        45 180 (57/1000) [45, 650] [180, 10] [57/1000, 476/10000] =
      score_with_renormalized_weights (1/2) (3/10) (1/5)
        45 180 (57/1000) [45, 650] [180, 10] [57/1000, 476/10000] ∧
    select_optimal_region (2 * (1/2)) (2 * (3/10)) (2 * (1/5)) [("FI", 45), ("IN", 650)] =
      select_optimal_region (1/2) (3/10) (1/5) [("FI", 45), ("IN", 650)]) :=
  ⟨by norm_num, by norm_num,
   multi_objective_score_scale_invariant 45 180 (57/1000) [45, 650] [180, 10]
     [57/1000, 476/10000] [("FI", 45), ("IN", 650)] (1/2) (3/10) (1/5) 2
     (by norm_num) (by norm_num)⟩

/-! ## Theorems for C2 -/

theorem trigger_with_adapter_from_succ (b : ℕ → Except String DeployResult) (d a r : ℕ) :
    trigger_with_adapter_from b d a (r + 1) =
      if attemptFails (b a) then
        (if r = 0 then ⟨1, [], false, some (b a)⟩
         else
           let rest := trigger_with_adapter_from b d (a + 1) r
           ⟨rest.attempts + 1, d :: rest.waitDelays, rest.success, rest.result⟩)
      else ⟨1, [], true, some (b a)⟩ := rfl

theorem trigger_with_adapter_from_all_fail (b : ℕ → Except String DeployResult) (d : ℕ) :
    ∀ (r a : ℕ), 1 ≤ r → (∀ i, a ≤ i → i < a + r → attemptFails (b i) = true) →
    trigger_with_adapter_from b d a r =
      ⟨r, List.replicate (r - 1) d, false, some (b (a + r - 1))⟩ := by
  intro r
  induction r with
  | zero => intro a h; exact absurd h (by omega)
  | succ n ih =>
    intro a _ hfail
    have hfa : attemptFails (b a) = true := hfail a (le_refl a) (by omega)
    cases n with
    | zero => rw [trigger_with_adapter_from_succ]; simp [hfa]
    | succ m =>
      have ih' := ih (a + 1) (by omega) (fun i h1 h2 => hfail i (by omega) (by omega))
      have hidx : a + 1 + (m + 1) - 1 = a + (m + 1 + 1) - 1 := by omega
      rw [trigger_with_adapter_from_succ]
      simp [hfa, ih', hidx, List.replicate_succ]

theorem trigger_with_adapter_from_first_success (b : ℕ → Except String DeployResult)
    (d : ℕ) :
    ∀ (r a k : ℕ), a ≤ k → k < a + r → attemptFails (b k) = false →
    (∀ i, a ≤ i → i < k → attemptFails (b i) = true) →
    trigger_with_adapter_from b d a r =
      ⟨k - a + 1, List.replicate (k - a) d, true, some (b k)⟩ := by
  intro r
  induction r with
  | zero => intro a k h1 h2 _ _; exact absurd h2 (by omega)
  | succ n ih =>
    intro a k hak hkr hsucc hprev
    by_cases hka : k = a
    · subst hka
      rw [trigger_with_adapter_from_succ]
      simp [hsucc]
    · have hfa : attemptFails (b a) = true := hprev a (le_refl a) (by omega)
      have hn0 : n ≠ 0 := by omega
      have ih' := ih (a + 1) k (by omega) (by omega) hsucc
        (fun i hi1 hi2 => hprev i (by omega) hi2)
      have h1 : k - (a + 1) + 1 + 1 = k - a + 1 := by omega
      have h2 : d :: List.replicate (k - (a + 1)) d = List.replicate (k - a) d := by
        rw [show k - a = k - (a + 1) + 1 from by omega, List.replicate_succ]
      rw [trigger_with_adapter_from_succ]
      simp [hfa, hn0, ih', h1, h2]

/-- C2 (code bug): the bounded-retry contract holds on the cloud-adapter
path of `trigger_function`, but the legacy direct-HTTP path can never
execute it: `trigger_function` evaluates `self.cloud_provider.upper()`
before selecting a path, raising `AttributeError` whenever `cloud_provider`
is `None`, and `JobRunner.__init__` leaves `cloud_provider = None` exactly
when it leaves `cloud_adapter = None` — so every legacy-mode dispatch
performs zero attempts and zero waits and raises instead of returning the
claimed `max_attempts`-attempt failure, while the repository's own
legacy-mode tests assert that contract.  Conjuncts: (1) with
`cloud_provider = None` the call raises `AttributeError` for every
behaviour, delay and `max_attempts` — in particular zero attempts and no
trace; (2) `__init__` never produces an adapter-free state with a
non-`None` provider, so the legacy loop is unreachable; (3, 4) on the
adapter path the claimed contract holds: total failure gives exactly `n`
attempts and `n - 1` waits of the fixed delay with the last observed
result returned, and a first success at attempt `j ≤ n` gives exactly `j`
attempts and `j - 1` waits. -/
theorem trigger_function_retry_contract :
    (∀ (ab : ℕ → Except String DeployResult) (lb : ℕ → HttpAttempt)
       (d n : ℕ) (a : Option AdapterKind),
      trigger_function a none ab lb d n = .error .attributeError) ∧
    (∀ cfg : Option String, (job_runner_init cfg).1 = none →
      (job_runner_init cfg).2 = none) ∧
    (∀ (ab : ℕ → Except String DeployResult) (lb : ℕ → HttpAttempt) (d n : ℕ)
       (k : AdapterKind) (p : String), 1 ≤ n →
      (∀ i, 1 ≤ i → i ≤ n → attemptFails (ab i) = true) →
      trigger_function (some k) (some p) ab lb d n =
        .ok (.adapterTrace ⟨n, List.replicate (n - 1) d, false, some (ab n)⟩)) ∧
    (∀ (ab : ℕ → Except String DeployResult) (lb : ℕ → HttpAttempt) (d n j : ℕ)
       (k : AdapterKind) (p : String), 1 ≤ j → j ≤ n →
      attemptFails (ab j) = false →
      (∀ i, 1 ≤ i → i < j → attemptFails (ab i) = true) →
      trigger_function (some k) (some p) ab lb d n =
        .ok (.adapterTrace ⟨j, List.replicate (j - 1) d, true, some (ab j)⟩)) := by
  refine ⟨?_, ?_, ?_, ?_⟩
  · intro ab lb d n a
    rfl
  · intro cfg h
    cases cfg with
    | none => rfl
    | some s =>
      by_cases hc : s ≠ "" ∧ py_lower s ≠ "none"
      · simp only [job_runner_init] at h ⊢
        rw [if_pos hc] at h ⊢
        cases hga : get_cloud_adapter (py_lower s) with
        | ok a2 =>
          rw [hga] at h
          exact absurd h (by simp)
        | error e =>
          rfl
      · simp only [job_runner_init] at h ⊢
        rw [if_neg hc]
  · intro ab lb d n k p hn hfail
    have h := trigger_with_adapter_from_all_fail ab d n 1 hn
      (fun i h1 h2 => hfail i h1 (by omega))
    rw [show 1 + n - 1 = n from by omega] at h
    have e1 : trigger_function (some k) (some p) ab lb d n =
        .ok (.adapterTrace (trigger_with_adapter_from ab d 1 n)) := rfl
    rw [e1, h]
  · intro ab lb d n j k p hj1 hjn hsucc hprev
    have h := trigger_with_adapter_from_first_success ab d n 1 j hj1 (by omega) hsucc
      (fun i h1 h2 => hprev i h1 h2)
    rw [show j - 1 + 1 = j from by omega] at h
    have e1 : trigger_function (some k) (some p) ab lb d n =
        .ok (.adapterTrace (trigger_with_adapter_from ab d 1 n)) := rfl
    rw [e1, h]

/-- Witness for C2 at the failing input (the repository's legacy-mode test
setup: `cloud_provider = None`, `max_retries = 3`, `retry_delay = 2`, the
endpoint always failing — zero attempts, an `AttributeError`) and at the
spec's adapter-path scenario (3 attempts, 2 waits of 2 seconds). -/
theorem trigger_function_retry_contract_w :
    trigger_function none none (fun _ => .ok ⟨false, "busy"⟩)
        (fun _ => .response 500 true) 2 3 = .error .attributeError ∧
    trigger_function (some .gcp) (some "gcp") (fun _ => .ok ⟨false, "busy"⟩)
        (fun _ => .response 500 true) 2 3 =
      .ok (.adapterTrace ⟨3, List.replicate 2 2, false, some (.ok ⟨false, "busy"⟩)⟩) :=
  ⟨trigger_function_retry_contract.1 (fun _ => .ok ⟨false, "busy"⟩)
     (fun _ => .response 500 true) 2 3 none,
   trigger_function_retry_contract.2.2.1 (fun _ => .ok ⟨false, "busy"⟩)
     (fun _ => .response 500 true) 2 3 .gcp "gcp" (by omega) (fun _ _ _ => rfl)⟩

/-! ## Theorems for C6 -/

/-- C6 counterexample: the claim says an attempt succeeds exactly when the
status is in the 2xx range and the body parses as JSON.  On the legacy path,
status 201 with a parseable JSON body is classified as a failure
(`unexpected_status`), and status 200 with a non-JSON body is classified as
a success — both directions of the claimed equivalence fail. -/
theorem handle_response_2xx_cex :
    (handle_response 201 true).1 = false ∧ (200 ≤ 201 ∧ 201 < 300) ∧
    (handle_response 200 false).1 = true := by decide

/-- C6 amended: the legacy `handle_response` classifies a dispatch attempt
as a success exactly when the status equals 200, regardless of whether the
body parsed as JSON (a non-JSON body is wrapped as `raw_response` but still
succeeds on 200); the adapter path classifies an attempt as a success
exactly when the POST returned a response whose status is outside the
`raise_for_status` range `[400, 600)` and whose body is empty or parses as
JSON. -/
theorem response_success_classification :
    (∀ (status : ℕ) (json_ok : Bool), (handle_response status json_ok).1 = true ↔ status = 200) ∧
    (∀ t : Except String HttpResponse, adapter_attempt_success t = true ↔
      ∃ resp, t = .ok resp ∧ raise_for_status resp.status = false ∧
        (resp.has_content = false ∨ resp.json_ok = true)) := by
  constructor
  · intro status json_ok
    simp only [handle_response]
    split_ifs with h1 h2 h3 h4 h5 <;> simp_all
  · intro t
    cases t with
    | error e => simp [adapter_attempt_success]
    | ok resp =>
      by_cases h : raise_for_status resp.status
      · simp [adapter_attempt_success, h]
      · rw [Bool.not_eq_true] at h
        cases hc : resp.has_content <;> cases hj : resp.json_ok <;>
          simp [adapter_attempt_success, h, hc, hj]

/-- Witness instantiating the amended C6 at a concrete response. -/
theorem response_success_classification_w :
    ((handle_response 200 true).1 = true ↔ (200 : ℕ) = 200) :=
  response_success_classification.1 200 true

/-! ## Theorems for C7 -/

/-- C7 counterexample: for the unrecognized provider name "openstack" the
factory does raise (`ValueError`), but `JobRunner.__init__` catches the
exception and falls back to the legacy direct-HTTP dispatch path
(`cloud_adapter = None`, `cloud_provider = None`) instead of letting a
configuration error surface at construction time — construction completes
with the default dispatch path. -/
theorem unknown_provider_fallback_cex :
    get_cloud_adapter "openstack" = .error .valueError ∧
    job_runner_init (some "openstack") = (none, none) := by
  constructor <;> rfl

/-- C7 amended: `get_cloud_adapter` resolves provider names after
`lower().strip()` normalization (so resolution is case-insensitive and
depends only on the normalized name), accepts the synonyms of the table
("google" and "google-cloud" give GCP, "amazon" gives AWS,
"microsoft-azure" gives Azure), and raises `ValueError` eagerly for any
name outside the table; however `JobRunner.__init__` catches that error and
falls back to the legacy direct-HTTP dispatch path (no adapter), so at the
system level an unrecognized name is replaced by the default dispatch path
rather than surfacing a configuration error. -/
theorem get_cloud_adapter_resolution :
    (get_cloud_adapter "google" = .ok .gcp) ∧
    (get_cloud_adapter "Google-Cloud" = .ok .gcp) ∧
    (get_cloud_adapter "AWS" = .ok .aws) ∧
    (get_cloud_adapter "Amazon" = .ok .aws) ∧
    (get_cloud_adapter " Azure " = .ok .azure) ∧
    (get_cloud_adapter "MICROSOFT-AZURE" = .ok .azure) ∧
    (∀ s t : String, py_strip (py_lower s) = py_strip (py_lower t) →
      get_cloud_adapter s = get_cloud_adapter t) ∧
    (∀ s : String, py_strip (py_lower s) ≠ "gcp" → py_strip (py_lower s) ≠ "google" →
      py_strip (py_lower s) ≠ "google-cloud" → py_strip (py_lower s) ≠ "aws" →
      py_strip (py_lower s) ≠ "amazon" → py_strip (py_lower s) ≠ "azure" →
      py_strip (py_lower s) ≠ "microsoft-azure" →
      get_cloud_adapter s = .error .valueError) ∧
    (∀ s : String, s ≠ "" → py_lower s ≠ "none" →
      get_cloud_adapter (py_lower s) = .error .valueError →
      job_runner_init (some s) = (none, none)) := by
  refine ⟨by rfl, by rfl, by rfl, by rfl, by rfl, by rfl, ?_, ?_, ?_⟩
  · intro s t h
    simp only [get_cloud_adapter]
    rw [h]
  · intro s h1 h2 h3 h4 h5 h6 h7
    simp only [get_cloud_adapter]
    simp [h1, h2, h3, h4, h5, h6, h7]
  · intro s hs hn hadapter
    simp only [job_runner_init]
    rw [if_pos ⟨hs, hn⟩, hadapter]

/-- Witness instantiating the amended C7 fallback clause at a concrete
unrecognized provider name. -/
theorem get_cloud_adapter_resolution_w :
    job_runner_init (some "badcloud") = (none, none) :=
  get_cloud_adapter_resolution.2.2.2.2.2.2.2.2 "badcloud" (by decide) (by decide) (by rfl)

/-! ## Theorems for C10 -/

theorem gcp_deploy_job_spec (cfg : AdapterConfig)
    (transport : String → PayloadEnvelope → Except String HttpResponse)
    (region : String) (payload : JobPayload) :
    (gcp_deploy_job cfg transport region payload).region = region ∧
    (gcp_deploy_job cfg transport region payload).provider = "GCP" ∧
    (∀ e, transport (gcp_url cfg region) (.raw payload.job_id) = .error e →
      (gcp_deploy_job cfg transport region payload).success = false) ∧
    (∀ resp, transport (gcp_url cfg region) (.raw payload.job_id) = .ok resp →
      raise_for_status resp.status = true →
      (gcp_deploy_job cfg transport region payload).success = false) ∧
    (∀ resp, transport (gcp_url cfg region) (.raw payload.job_id) = .ok resp →
      resp.has_content = true → resp.json_ok = false →
      (gcp_deploy_job cfg transport region payload).success = false) := by
  unfold gcp_deploy_job make_request
  cases transport (gcp_url cfg region) (.raw payload.job_id) with
  | error e =>
    exact ⟨rfl, rfl, fun _ _ => rfl, fun resp h => by simp at h, fun resp h => by simp at h⟩
  | ok resp =>
    refine ⟨?_, ?_, fun e h => by simp at h, ?_, ?_⟩
    · by_cases hr : raise_for_status resp.status <;>
        by_cases hc : (resp.has_content && !resp.json_ok) = true <;> simp [hr, hc]
    · by_cases hr : raise_for_status resp.status <;>
        by_cases hc : (resp.has_content && !resp.json_ok) = true <;> simp [hr, hc]
    · intro r h hr
      obtain rfl : resp = r := by injection h
      simp [hr]
    · intro r h hc hj
      obtain rfl : resp = r := by injection h
      by_cases hr : raise_for_status resp.status <;> simp [hr, hc, hj]

theorem aws_deploy_job_spec (cfg : AdapterConfig)
    (transport : String → PayloadEnvelope → Except String HttpResponse)
    (region : String) (payload : JobPayload) :
    (aws_deploy_job cfg transport region payload).region = region ∧
    (aws_deploy_job cfg transport region payload).provider = "AWS" ∧
    (∀ e, transport (aws_url cfg region) (.wrapped payload.job_id) = .error e →
      (aws_deploy_job cfg transport region payload).success = false) ∧
    (∀ resp, transport (aws_url cfg region) (.wrapped payload.job_id) = .ok resp →
      raise_for_status resp.status = true →
      (aws_deploy_job cfg transport region payload).success = false) ∧
    (∀ resp, transport (aws_url cfg region) (.wrapped payload.job_id) = .ok resp →
      resp.has_content = true → resp.json_ok = false →
      (aws_deploy_job cfg transport region payload).success = false) := by
  unfold aws_deploy_job make_request
  cases transport (aws_url cfg region) (.wrapped payload.job_id) with
  | error e =>
    exact ⟨rfl, rfl, fun _ _ => rfl, fun resp h => by simp at h, fun resp h => by simp at h⟩
  | ok resp =>
    refine ⟨?_, ?_, fun e h => by simp at h, ?_, ?_⟩
    · by_cases hr : raise_for_status resp.status <;>
        by_cases hc : (resp.has_content && !resp.json_ok) = true <;> simp [hr, hc]
    · by_cases hr : raise_for_status resp.status <;>
        by_cases hc : (resp.has_content && !resp.json_ok) = true <;> simp [hr, hc]
    · intro r h hr
      obtain rfl : resp = r := by injection h
      simp [hr]
    · intro r h hc hj
      obtain rfl : resp = r := by injection h
      by_cases hr : raise_for_status resp.status <;> simp [hr, hc, hj]

theorem azure_deploy_job_spec (cfg : AdapterConfig)
    (transport : String → PayloadEnvelope → Except String HttpResponse)
    (region : String) (payload : JobPayload) :
    (azure_deploy_job cfg transport region payload).region = region ∧
    (azure_deploy_job cfg transport region payload).provider = "Azure" ∧
    (∀ e, transport (azure_url cfg region) (.raw payload.job_id) = .error e →
      (azure_deploy_job cfg transport region payload).success = false) ∧
    (∀ resp, transport (azure_url cfg region) (.raw payload.job_id) = .ok resp →
      raise_for_status resp.status = true →
      (azure_deploy_job cfg transport region payload).success = false) ∧
    (∀ resp, transport (azure_url cfg region) (.raw payload.job_id) = .ok resp →
      resp.has_content = true → resp.json_ok = false →
      (azure_deploy_job cfg transport region payload).success = false) := by
  unfold azure_deploy_job make_request
  cases transport (azure_url cfg region) (.raw payload.job_id) with
  | error e =>
    exact ⟨rfl, rfl, fun _ _ => rfl, fun resp h => by simp at h, fun resp h => by simp at h⟩
  | ok resp =>
    refine ⟨?_, ?_, fun e h => by simp at h, ?_, ?_⟩
    · by_cases hr : raise_for_status resp.status <;>
        by_cases hc : (resp.has_content && !resp.json_ok) = true <;> simp [hr, hc]
    · by_cases hr : raise_for_status resp.status <;>
        by_cases hc : (resp.has_content && !resp.json_ok) = true <;> simp [hr, hc]
    · intro r h hr
      obtain rfl : resp = r := by injection h
      simp [hr]
    · intro r h hc hj
      obtain rfl : resp = r := by injection h
      by_cases hr : raise_for_status resp.status <;> simp [hr, hc, hj]

/-- C10: for every configuration, transport behaviour, region string and
payload, each concrete adapter's `deploy_job` is a total function into a
result dict (it never propagates an exception): its `region` field equals
the region argument, its `provider` field equals the adapter's fixed
provider name, and every error raised during the request — a transport
exception, a `raise_for_status` HTTP error, or a JSON-decoding failure on a
non-empty body — yields a result with `success = false`. -/
theorem deploy_job_total_and_tagged (cfg : AdapterConfig)
    (transport : String → PayloadEnvelope → Except String HttpResponse)
    (region : String) (payload : JobPayload) :
    ((gcp_deploy_job cfg transport region payload).region = region ∧
     (gcp_deploy_job cfg transport region payload).provider = "GCP" ∧
     (∀ e, transport (gcp_url cfg region) (.raw payload.job_id) = .error e →
       (gcp_deploy_job cfg transport region payload).success = false) ∧
     (∀ resp, transport (gcp_url cfg region) (.raw payload.job_id) = .ok resp →
       raise_for_status resp.status = true →
       (gcp_deploy_job cfg transport region payload).success = false) ∧
     (∀ resp, transport (gcp_url cfg region) (.raw payload.job_id) = .ok resp →
       resp.has_content = true → resp.json_ok = false →
       (gcp_deploy_job cfg transport region payload).success = false)) ∧
    ((aws_deploy_job cfg transport region payload).region = region ∧
     (aws_deploy_job cfg transport region payload).provider = "AWS" ∧
     (∀ e, transport (aws_url cfg region) (.wrapped payload.job_id) = .error e →
       (aws_deploy_job cfg transport region payload).success = false) ∧
     (∀ resp, transport (aws_url cfg region) (.wrapped payload.job_id) = .ok resp →
       raise_for_status resp.status = true →
       (aws_deploy_job cfg transport region payload).success = false) ∧
     (∀ resp, transport (aws_url cfg region) (.wrapped payload.job_id) = .ok resp →
       resp.has_content = true → resp.json_ok = false →
       (aws_deploy_job cfg transport region payload).success = false)) ∧
    ((azure_deploy_job cfg transport region payload).region = region ∧
     (azure_deploy_job cfg transport region payload).provider = "Azure" ∧
     (∀ e, transport (azure_url cfg region) (.raw payload.job_id) = .error e →
       (azure_deploy_job cfg transport region payload).success = false) ∧
     (∀ resp, transport (azure_url cfg region) (.raw payload.job_id) = .ok resp →
       raise_for_status resp.status = true →
       (azure_deploy_job cfg transport region payload).success = false) ∧
     (∀ resp, transport (azure_url cfg region) (.raw payload.job_id) = .ok resp →
       resp.has_content = true → resp.json_ok = false →
       (azure_deploy_job cfg transport region payload).success = false)) :=
  ⟨gcp_deploy_job_spec cfg transport region payload,
   aws_deploy_job_spec cfg transport region payload,
   azure_deploy_job_spec cfg transport region payload⟩

/-- Witness for C10 at a failing transport: the GCP adapter converts the
raised transport error into `success = false` while tagging the requested
region. -/
theorem deploy_job_total_and_tagged_w :
    (gcp_deploy_job ⟨none, "cass-lite", "cass-worker", "abcdefghijk", "cass-function-app"⟩
      (fun _ _ => .error "connection refused") "us-central1" ⟨none⟩).success = false ∧
    (gcp_deploy_job ⟨none, "cass-lite", "cass-worker", "abcdefghijk", "cass-function-app"⟩
      (fun _ _ => .error "connection refused") "us-central1" ⟨none⟩).region = "us-central1" :=
  ⟨(deploy_job_total_and_tagged _ _ _ _).1.2.2.1 "connection refused" rfl,
   (deploy_job_total_and_tagged _ _ _ _).1.1⟩

/-! ## Theorems for C9 -/

theorem mergeSort_ne_nil {α : Type} (le : α → α → Bool) (l : List α) (h : l ≠ []) :
    l.mergeSort le ≠ [] := by
  intro hc
  have hlen := (List.mergeSort_perm l le).length_eq
  rw [hc] at hlen
  exact h (List.length_eq_zero.mp hlen.symm)

theorem pythonRound_nonneg {q : ℚ} (h : 0 ≤ q) : 0 ≤ pythonRound q := by
  have hf : (0 : ℤ) ≤ ⌊q⌋ := Int.floor_nonneg.mpr h
  unfold pythonRound
  split
  · exact hf
  · split
    · omega
    · split
      · exact hf
      · omega

theorem pythonRound1_nonneg {q : ℚ} (h : 0 ≤ q) : 0 ≤ pythonRound1 q := by
  have h10 : (0 : ℚ) ≤ 10 * q := by positivity
  have hr := pythonRound_nonneg h10
  unfold pythonRound1
  have : (0 : ℚ) ≤ (pythonRound (10 * q) : ℚ) := by exact_mod_cast hr
  exact div_nonneg this (by norm_num)

/-- C9 counterexample: with candidates A=100 and B=101 the single-objective
path selects A, the mean is 100.5, the raw savings is 0.5, but the reported
`savings` is `round(0.5) = 0` (banker's rounding to an integer), so the
reported savings does not equal mean minus selected carbon intensity. -/
theorem greenest_savings_rounding_cex :
    get_greenest_region [("A", some 100), ("B", some 101)] =
      some { zone := "A", carbonIntensity := 100, savings := 0,
             averageCarbon := 100, totalRegions := 2 } ∧
    ((0 : ℚ) ≠ ((100 : ℚ) + 101) / 2 - 100) := by
  constructor
  · have h1 : valid_regions [("A", some 100), ("B", some 101)] =
        [("A", (100 : ℚ)), ("B", 101)] := rfl
    simp only [get_greenest_region, h1, min_by_intensity, List.foldl_cons, List.foldl_nil,
      min_step, List.map_cons, List.map_nil, List.sum_cons, List.sum_nil, List.length_cons,
      List.length_nil]
    norm_num [pythonRound, Int.fract]
  · norm_num

/-- C9 amended: the single-objective path reports
`savings = round(mean - selected)` — the integer-rounded value, not the raw
difference; the multi-objective path reports `savings_gco2` as exactly the
raw mean minus the selected candidate's carbon intensity, unclamped and
possibly negative; neither selection path clamps — clamping to ≥ 0 happens
only in the dashboard display helper `calculate_carbon_savings`, which
recomputes savings as `max(0, mean - selected)` and therefore always
returns a non-negative display value. -/
theorem savings_reporting :
    (∀ all_data : List (String × Option ℚ), valid_regions all_data ≠ [] →
      ∃ r, get_greenest_region all_data = some r ∧
        r.savings = pythonRound
          (((valid_regions all_data).map (fun c => c.2)).sum /
            ((valid_regions all_data).length : ℚ) - r.carbonIntensity)) ∧
    (∀ (w1 w2 w3 : ℚ) (data : List (String × ℚ)), w1 + w2 + w3 ≠ 0 → data ≠ [] →
      ∃ o, select_optimal_region w1 w2 w3 data = .ok o ∧
        o.avg_carbon_intensity = (data.map (fun p => p.2)).sum / (data.length : ℚ) ∧
        o.savings_gco2 = o.avg_carbon_intensity - o.carbon_intensity) ∧
    (∀ (sel : ℚ) (cs : List ℚ), 0 ≤ (calculate_carbon_savings sel cs).1) := by
  refine ⟨?_, ?_, ?_⟩
  · intro all_data h
    obtain ⟨p, l1, l2, hp, hsplit, hmin, hfirst⟩ := min_by_intensity_spec _ h
    refine ⟨{ zone := p.1
              carbonIntensity := p.2
              savings := pythonRound
                (((valid_regions all_data).map (fun c => c.2)).sum /
                  ((valid_regions all_data).length : ℚ) - p.2)
              averageCarbon := pythonRound
                (((valid_regions all_data).map (fun c => c.2)).sum /
                  ((valid_regions all_data).length : ℚ))
              totalRegions := (valid_regions all_data).length }, ?_, rfl⟩
    simp only [get_greenest_region, hp]
  · intro w1 w2 w3 data hw hd
    cases hsel : select_optimal_region w1 w2 w3 data with
    | error e =>
      exfalso
      simp only [select_optimal_region] at hsel
      rw [if_neg hw, if_neg hd] at hsel
      split at hsel
      · rename_i heq
        exact mergeSort_ne_nil _ _ (by simp [hd]) heq
      · exact absurd hsel (by simp)
    | ok o =>
      have hfields : o.avg_carbon_intensity = (data.map (fun p => p.2)).sum / (data.length : ℚ) ∧
          o.savings_gco2 = o.avg_carbon_intensity - o.carbon_intensity := by
        simp only [select_optimal_region] at hsel
        rw [if_neg hw, if_neg hd] at hsel
        split at hsel
        · exact absurd hsel (by simp)
        · rename_i opt rest heq
          injection hsel with hrec
          subst hrec
          constructor
          · simp only [List.map_map, List.length_map]
            rfl
          · rfl
      exact ⟨o, rfl, hfields.1, hfields.2⟩
  · intro sel cs
    unfold calculate_carbon_savings
    by_cases h : cs = []
    · simp [h]
    · rw [if_neg h]
      exact pythonRound1_nonneg (le_max_left 0 _)

/-- Witness instantiating the amended C9 at concrete inputs. -/
theorem savings_reporting_w :
    (∃ r, get_greenest_region [("FI", some 45)] = some r ∧
      r.savings = pythonRound
        (((valid_regions [("FI", some 45)]).map (fun c => c.2)).sum /
          ((valid_regions [("FI", some 45)]).length : ℚ) - r.carbonIntensity)) ∧
    (∃ o, select_optimal_region (1/2) (3/10) (1/5) [("FI", 45)] = .ok o ∧
      o.avg_carbon_intensity =
        (([("FI", (45 : ℚ))]).map (fun p => p.2)).sum / ((([("FI", (45 : ℚ))]).length) : ℚ) ∧
      o.savings_gco2 = o.avg_carbon_intensity - o.carbon_intensity) ∧
    0 ≤ (calculate_carbon_savings 45 [45]).1 :=
  ⟨savings_reporting.1 _ (by simp [valid_regions]),
   savings_reporting.2.1 (1/2) (3/10) (1/5) [("FI", 45)] (by norm_num) (by simp),
   savings_reporting.2.2 45 [45]⟩

/-! ## Theorems for C3 -/

theorem dominates_irrefl (s : Solution) : dominates s s = false := by
  simp [dominates]

theorem dominates_trans {a b c : Solution} (hab : dominates a b = true)
    (hbc : dominates b c = true) : dominates a c = true := by
  simp only [dominates, Bool.and_eq_true, Bool.or_eq_true, decide_eq_true_eq] at hab hbc ⊢
  obtain ⟨⟨h1, h2⟩, h3⟩ := hab
  obtain ⟨⟨h4, h5⟩, h6⟩ := hbc
  refine ⟨⟨le_trans h1 h4, le_trans h2 h5⟩, ?_⟩
  rcases h3 with h | h
  · exact Or.inl (lt_of_lt_of_le h h4)
  · exact Or.inr (lt_of_lt_of_le h h5)

theorem dominates_sum_lt {a b : Solution} (h : dominates a b = true) :
    a.obj1 + a.obj2 < b.obj1 + b.obj2 := by
  simp only [dominates, Bool.and_eq_true, Bool.or_eq_true, decide_eq_true_eq] at h
  obtain ⟨⟨h1, h2⟩, h3⟩ := h
  rcases h3 with h | h
  · exact add_lt_add_of_lt_of_le h h2
  · exact add_lt_add_of_le_of_lt h1 h

theorem exists_min_sum (l : List Solution) (h : l ≠ []) :
    ∃ q ∈ l, ∀ r ∈ l, q.obj1 + q.obj2 ≤ r.obj1 + r.obj2 := by
  induction l with
  | nil => exact absurd rfl h
  | cons x xs ih =>
    by_cases hxs : xs = []
    · subst hxs
      refine ⟨x, List.mem_cons_self x [], ?_⟩
      intro r hr
      rcases List.mem_cons.mp hr with rfl | hr
      · exact le_refl _
      · exact absurd hr (List.not_mem_nil r)
    · obtain ⟨q, hq, hmin⟩ := ih hxs
      by_cases hc : x.obj1 + x.obj2 ≤ q.obj1 + q.obj2
      · refine ⟨x, List.mem_cons_self x xs, ?_⟩
        intro r hr
        rcases List.mem_cons.mp hr with rfl | hr
        · exact le_refl _
        · exact le_trans hc (hmin r hr)
      · push_neg at hc
        refine ⟨q, List.mem_cons_of_mem x hq, ?_⟩
        intro r hr
        rcases List.mem_cons.mp hr with rfl | hr
        · exact le_of_lt hc
        · exact hmin r hr

theorem is_dominated_at_eq (solutions : List Solution) (i : ℕ) (si : Solution)
    (hmem : (i, si) ∈ solutions.enum) :
    is_dominated_at solutions.enum i si = is_dominated solutions si := by
  rw [Bool.eq_iff_iff]
  simp only [is_dominated_at, is_dominated, List.any_eq_true, Bool.and_eq_true,
    decide_eq_true_eq]
  constructor
  · rintro ⟨jp, hjp, hne, hdom⟩
    exact ⟨jp.2, List.mem_iff_getElem?.mpr ⟨jp.1, List.mem_enum_iff_getElem?.mp hjp⟩, hdom⟩
  · rintro ⟨sj, hsj, hdom⟩
    obtain ⟨j, hj⟩ := List.mem_iff_getElem?.mp hsj
    refine ⟨(j, sj), List.mem_enum_iff_getElem?.mpr hj, ?_, hdom⟩
    intro hji
    have hji2 : j = i := hji
    rw [hji2] at hj
    have hi := List.mem_enum_iff_getElem?.mp hmem
    have hss : si = sj := by
      have := hi.symm.trans hj
      injection this
    rw [← hss] at hdom
    rw [dominates_irrefl] at hdom
    exact Bool.false_ne_true hdom

theorem frontier_eq (solutions : List Solution) :
    generate_pareto_frontier solutions =
      (solutions.filter (fun s => !is_dominated solutions s)).mergeSort
        (fun a b => decide (a.obj1 ≤ b.obj1)) := by
  simp only [generate_pareto_frontier]
  congr 1
  have h1 : solutions.enum.filter (fun ip => !(is_dominated_at solutions.enum ip.1 ip.2)) =
      solutions.enum.filter ((fun s => !is_dominated solutions s) ∘ Prod.snd) := by
    apply List.filter_congr
    intro x hx
    have hx' : (x.1, x.2) ∈ solutions.enum := by simpa using hx
    rw [is_dominated_at_eq solutions x.1 x.2 hx']
    rfl
  rw [h1, ← List.filter_map, List.enum_map_snd]

theorem mem_frontier (solutions : List Solution) (q : Solution) :
    q ∈ generate_pareto_frontier solutions ↔
      q ∈ solutions ∧ is_dominated solutions q = false := by
  rw [frontier_eq, (List.mergeSort_perm _ _).mem_iff, List.mem_filter, Bool.not_eq_true']

/-- C3: for every finite list of solutions and any fixed pair of objectives,
`generate_pareto_frontier` returns exactly the non-dominated solutions
(as a permutation of the filter of non-dominated input points), sorted
ascending by the first objective; no returned point is dominated by any
input point, every excluded input point is dominated by at least one
returned point, and two solutions equal on both objectives never dominate
each other and are kept or excluded together. -/
theorem generate_pareto_frontier_spec (solutions : List Solution) :
    (generate_pareto_frontier solutions).Perm
        (solutions.filter (fun s => !is_dominated solutions s)) ∧
    (generate_pareto_frontier solutions).Pairwise (fun a b => a.obj1 ≤ b.obj1) ∧
    (∀ p ∈ generate_pareto_frontier solutions, ∀ r ∈ solutions, dominates r p = false) ∧
    (∀ p ∈ solutions, p ∉ generate_pareto_frontier solutions →
      ∃ q ∈ generate_pareto_frontier solutions, dominates q p = true) ∧
    (∀ p ∈ solutions, ∀ q ∈ solutions, p.obj1 = q.obj1 → p.obj2 = q.obj2 →
      dominates p q = false ∧
      (p ∈ generate_pareto_frontier solutions ↔ q ∈ generate_pareto_frontier solutions)) := by
  refine ⟨?_, ?_, ?_, ?_, ?_⟩
  · rw [frontier_eq]
    exact List.mergeSort_perm _ _
  · rw [frontier_eq]
    have htrans : ∀ a b c : Solution,
        (fun a b : Solution => decide (a.obj1 ≤ b.obj1)) a b = true →
        (fun a b : Solution => decide (a.obj1 ≤ b.obj1)) b c = true →
        (fun a b : Solution => decide (a.obj1 ≤ b.obj1)) a c = true := by
      intro a b c hab hbc
      simp only [decide_eq_true_eq] at hab hbc ⊢
      exact le_trans hab hbc
    have htotal : ∀ a b : Solution,
        ((fun a b : Solution => decide (a.obj1 ≤ b.obj1)) a b ||
         (fun a b : Solution => decide (a.obj1 ≤ b.obj1)) b a) = true := by
      intro a b
      simp [le_total]
    have hs := List.sorted_mergeSort htrans htotal
      (solutions.filter (fun s => !is_dominated solutions s))
    exact hs.imp (fun h => of_decide_eq_true h)
  · intro p hp r hr
    have hnd := ((mem_frontier solutions p).mp hp).2
    have h2 := List.any_eq_false.mp hnd r hr
    rw [Bool.not_eq_true] at h2
    exact h2
  · intro p hp hnotin
    have hdom : is_dominated solutions p = true := by
      by_contra hc
      rw [Bool.not_eq_true] at hc
      exact hnotin ((mem_frontier solutions p).mpr ⟨hp, hc⟩)
    obtain ⟨r0, hr0, hd0⟩ := List.any_eq_true.mp hdom
    have hDne : solutions.filter (fun r => dominates r p) ≠ [] := by
      intro hc
      have hmem : r0 ∈ solutions.filter (fun r => dominates r p) :=
        List.mem_filter.mpr ⟨hr0, hd0⟩
      rw [hc] at hmem
      exact absurd hmem (List.not_mem_nil r0)
    obtain ⟨q, hqD, hqmin⟩ := exists_min_sum _ hDne
    obtain ⟨hqsol, hqdom⟩ := List.mem_filter.mp hqD
    have hqnd : is_dominated solutions q = false := by
      by_contra hc
      rw [Bool.not_eq_false] at hc
      obtain ⟨r, hrsol, hrq⟩ := List.any_eq_true.mp hc
      have hrp : dominates r p = true := dominates_trans hrq hqdom
      have hrD : r ∈ solutions.filter (fun r => dominates r p) :=
        List.mem_filter.mpr ⟨hrsol, hrp⟩
      have hmin := hqmin r hrD
      have hlt := dominates_sum_lt hrq
      linarith
    exact ⟨q, (mem_frontier solutions q).mpr ⟨hqsol, hqnd⟩, hqdom⟩
  · intro p hp q hq h1 h2
    constructor
    · simp [dominates, h1, h2]
    · have hfun : (fun sj => dominates sj p) = (fun sj => dominates sj q) := by
        funext r
        simp [dominates, h1, h2]
      have hdeq : is_dominated solutions p = is_dominated solutions q := by
        simp only [is_dominated]
        rw [hfun]
      rw [mem_frontier, mem_frontier, hdeq]
      simp [hp, hq]

/-- Witness instantiating C3 at the spec's three-candidate scenario on the
(carbon, latency) objectives. -/
theorem generate_pareto_frontier_spec_w :
    ((generate_pareto_frontier [⟨"IN", 650, 10⟩, ⟨"FI", 45, 180⟩, ⟨"DE", 420, 150⟩]).Perm
        ([⟨"IN", 650, 10⟩, ⟨"FI", 45, 180⟩, ⟨"DE", 420, 150⟩].filter
          (fun s => !is_dominated [⟨"IN", 650, 10⟩, ⟨"FI", 45, 180⟩, ⟨"DE", 420, 150⟩] s))) ∧
    (∀ p ∈ generate_pareto_frontier [⟨"IN", 650, 10⟩, ⟨"FI", 45, 180⟩, ⟨"DE", 420, 150⟩],
      ∀ r ∈ [⟨"IN", 650, 10⟩, ⟨"FI", 45, 180⟩, (⟨"DE", 420, 150⟩ : Solution)],
        dominates r p = false) :=
  ⟨(generate_pareto_frontier_spec [⟨"IN", 650, 10⟩, ⟨"FI", 45, 180⟩, ⟨"DE", 420, 150⟩]).1,
   (generate_pareto_frontier_spec [⟨"IN", 650, 10⟩, ⟨"FI", 45, 180⟩, ⟨"DE", 420, 150⟩]).2.2.1⟩
